import Mathlib

/-!
Shallow embedding of `src/dask_gateway/yarn_cluster.py` (class
`YarnClusterManager`), the cluster lifecycle controller for deploying Dask on
a YARN cluster, together with theorems checking the repository's
natural-language specification against it.

Modelling conventions:
- Machine-level / external collaborators (the skein resource-manager client,
  the base `ClusterManager`) are represented at their interface boundary:
  application reports are an enumerated state, `submit` / `application_report`
  / `kill_application` are capabilities supplied by an environment record,
  and the externally populated `scheduler_address` / `dashboard_address`
  fields are functions of poll time.
- Python raising an exception is an `Except.error` / `Option Err` value.
- The filesystem touched by `temp_write_credentials` is an association list
  from paths to file records (permission mode bits and byte content).
- Blocking awaits (`run_in_executor`, `gen.sleep`) are counted, and the two
  polling loops of `start` are fuel-indexed (the source loops have no
  deadline, so they may run forever; `none` means the fuel ran out while the
  loop was still running).
-/

set_option autoImplicit false

namespace YarnCluster

/-- Errors a `YarnClusterManager` operation can raise.  `typeError` is
Python's `TypeError`; `fileExists` is the `FileExistsError` raised by
`os.open` with `O_EXCL`; `remoteTermination` is the `Exception("Application
%s failed to start ...")` raised by `start` (it carries the application id
interpolated into the message); `submitFailure` is an error raised by the
external `client.submit` capability. -/
inductive Err where
  | typeError
  | fileExists (path : String)
  | remoteTermination (app_id : String)
  | submitFailure (msg : String)
deriving DecidableEq

/-- YARN application states as reported by `client.application_report`
(spec section 3: `{SUBMITTED, ACCEPTED, RUNNING, FAILED, KILLED, FINISHED}`). -/
inductive AppState where
  | SUBMITTED
  | ACCEPTED
  | RUNNING
  | FAILED
  | KILLED
  | FINISHED
deriving DecidableEq

/-- `str(report.state)` — the string name of an application state. -/
def stateStr : AppState → String
  | AppState.SUBMITTED => "SUBMITTED"
  | AppState.ACCEPTED => "ACCEPTED"
  | AppState.RUNNING => "RUNNING"
  | AppState.FAILED => "FAILED"
  | AppState.KILLED => "KILLED"
  | AppState.FINISHED => "FINISHED"

/-- Membership test `state in {'FAILED', 'KILLED', 'FINISHED'}` used by both
polling loops of `start` (lines 254 and 270). -/
def inTerminalSet (s : String) : Bool :=
  s == "FAILED" || s == "KILLED" || s == "FINISHED"

/-! ### Python dynamic values for the command-building properties

`worker_command` (line 179) and `scheduler_command` (line 184) evaluate
`self.worker_cmd + self.get_worker_args()` where the left operand is a `str`
(traitlets `Unicode`) and the right operand is the argument list returned by
the base class (spec section 6: "precomputed worker/scheduler argument
lists").  Python `+` concatenates two strings or two lists but raises
`TypeError` when mixing a `str` with a `list`, so we embed the dynamic
operand types. -/

/-- A Python value that is either a `str` or a `list` of strings. -/
inductive PyVal where
  | str (s : String)
  | list (xs : List String)
deriving DecidableEq

/-- Python `+` on `str`/`list` operands: concatenates operands of equal type
and raises `TypeError` on a mixed application. -/
def pyAdd : PyVal → PyVal → Except Err PyVal
  | PyVal.str a, PyVal.str b => Except.ok (PyVal.str (a ++ b))
  | PyVal.list a, PyVal.list b => Except.ok (PyVal.list (a ++ b))
  | _, _ => Except.error Err.typeError

/-- Python `' '.join(x)`: joins the elements of a list with single spaces;
joining a `str` iterates its characters. -/
def pyJoinSpace : PyVal → String
  | PyVal.list xs => String.intercalate " " xs
  | PyVal.str s => String.intercalate " " (s.data.map (fun c => String.mk [c]))

/-- Line 177-179: `' '.join(self.worker_cmd + self.get_worker_args())`. -/
def worker_command (worker_cmd : String) (worker_args : List String) : Except Err String :=
  (pyAdd (PyVal.str worker_cmd) (PyVal.list worker_args)).map pyJoinSpace

/-- Line 181-184: `' '.join(self.scheduler_cmd + self.get_scheduler_args())`. -/
def scheduler_command (scheduler_cmd : String) (scheduler_args : List String) : Except Err String :=
  (pyAdd (PyVal.str scheduler_cmd) (PyVal.list scheduler_args)).map pyJoinSpace

/-! ### The application specification (`_build_specification`, lines 186-227) -/

/-- A value of `localize_files`: either a plain `skein.File`-like resource or
a `dict` that line 187 converts through `skein.File.from_dict`. -/
inductive Resource where
  | dict (d : String)
  | file (f : String)
deriving DecidableEq

/-- Modelled from the spec: `skein.File.from_dict` is external library code
(the repository only calls it); the spec treats resource locators opaquely,
so the conversion is an opaque injective tagging of the dict payload. -/
def file_from_dict (d : String) : String :=
  "file:" ++ d

/-- The comprehension of line 187: dict values go through
`skein.File.from_dict`, other values are kept as they are. -/
def resolveResource : Resource → String
  | Resource.dict d => file_from_dict d
  | Resource.file f => f

/-- Python dict item assignment `d[k] = v` on an insertion-ordered
association list: replaces the value of an existing key in place, otherwise
appends the new binding. -/
def dictSet : List (String × String) → String → String → List (String × String)
  | [], k, v => [(k, v)]
  | kv :: t, k, v => if kv.1 = k then (k, v) :: t else kv :: dictSet t k v

/-- Python `d.get(k)` on an association list. -/
def dictGet : List (String × String) → String → Option String
  | [], _ => none
  | kv :: t, k => if k = kv.1 then some kv.2 else dictGet t k

/-- `skein.Resources(memory='%d b' % ..., vcores=...)`. -/
structure SkeinResources where
  memory : String
  vcores : Nat
deriving DecidableEq

/-- `skein.Master(...)` of lines 196-205; `security` is the token of the
freshly generated `skein.Security.new_credentials()` value. -/
structure SkeinMaster where
  security : Nat
  resources : SkeinResources
  files : List (String × String)
  env : List (String × String)
  script : String
deriving DecidableEq

/-- `skein.Service(...)` of lines 208-218. -/
structure SkeinService where
  instances : Nat
  resources : SkeinResources
  max_restarts : Int
  files : List (String × String)
  env : List (String × String)
  script : String
deriving DecidableEq

/-- `skein.ApplicationSpec(...)` of lines 221-227. -/
structure ApplicationSpec where
  name : String
  queue : String
  user : String
  master : SkeinMaster
  services : List (String × SkeinService)
deriving DecidableEq

/-- The configuration and base-class data a `YarnClusterManager` instance
reads.  Traits are from lines 15-133; `cluster_id`, `temp_dir`, `user_name`,
`tls_cert`/`tls_key`, the environment mapping and the argument lists come
from the base `ClusterManager` (spec section 6). -/
structure Config where
  principal : Option String
  keytab : Option String
  queue : String
  localize_files : List (String × Resource)
  worker_memory : Nat
  worker_cores : Nat
  worker_setup : String
  worker_cmd : String
  scheduler_memory : Nat
  scheduler_cores : Nat
  scheduler_setup : String
  scheduler_cmd : String
  temp_dir : String
  cluster_id : String
  user_name : String
  env_vars : List (String × String)
  worker_args : List String
  scheduler_args : List String
  tls_cert : List Nat
  tls_key : List Nat

/-- Lines 186-227: `_build_specification(cert_path, key_path)`.  `cred` is
the token of the `skein.Security.new_credentials()` value generated at line
197 (fresh external randomness, passed in explicitly).  Raised exceptions
are `Except.error`. -/
def _build_specification (cfg : Config) (cred : Nat) (cert_path key_path : String) :
    Except Err ApplicationSpec :=
  let files0 := cfg.localize_files.map (fun kv => (kv.1, resolveResource kv.2))
  let files := dictSet (dictSet files0 "dask.crt" cert_path) "dask.pem" key_path
  match scheduler_command cfg.scheduler_cmd cfg.scheduler_args with
  | Except.error e => Except.error e
  | Except.ok sched_cmd =>
    match worker_command cfg.worker_cmd cfg.worker_args with
    | Except.error e => Except.error e
    | Except.ok work_cmd =>
      let scheduler_script := String.intercalate "\n" [cfg.scheduler_setup, sched_cmd]
      let worker_script := String.intercalate "\n" [cfg.worker_setup, work_cmd]
      Except.ok
        { name := "dask-gateway"
          queue := cfg.queue
          user := cfg.user_name
          master :=
            { security := cred
              resources :=
                { memory := toString cfg.scheduler_memory ++ " b"
                  vcores := cfg.scheduler_cores }
              files := files
              env := cfg.env_vars
              script := scheduler_script }
          services :=
            [("dask.worker",
              { instances := 0
                resources :=
                  { memory := toString cfg.worker_memory ++ " b"
                    vcores := cfg.worker_cores }
                max_restarts := -1
                files := files
                env := cfg.env_vars
                script := worker_script })] }

/-! ### The filesystem and `temp_write_credentials` (lines 150-174) -/

/-- A file on disk: its permission mode bits and its byte content. -/
structure FileRec where
  mode : Nat
  content : List Nat
deriving DecidableEq

/-- The filesystem visible to `temp_write_credentials`: an association list
from paths to file records. -/
def FS : Type := List (String × FileRec)

/-- `os.stat`-style lookup of a path. -/
def fsLookup : FS → String → Option FileRec
  | [], _ => none
  | kv :: t, p => if p = kv.1 then some kv.2 else fsLookup t p

/-- `os.path.exists(p)`. -/
def fsExists (fs : FS) (p : String) : Bool :=
  (fsLookup fs p).isSome

/-- `os.unlink(p)`: removes every record at the path. -/
def fsUnlink (fs : FS) (p : String) : FS :=
  fs.filter (fun kv => kv.1 != p)

/-- Lines 172-174, one loop iteration: `if os.path.exists(path): os.unlink(path)`. -/
def unlinkIfExists (fs : FS) (p : String) : FS :=
  if fsExists fs p then fsUnlink fs p else fs

/-- Lines 164,167-168: `os.open(path, O_WRONLY|O_CREAT|O_EXCL, mode)`
followed by writing the full byte content.  Raises `FileExistsError` when
the path is already present, otherwise creates the file with the given
permission mode and content. -/
def fsCreateExcl (fs : FS) (p : String) (mode : Nat) (data : List Nat) : Except Err FS :=
  if fsExists fs p then Except.error (Err.fileExists p)
  else Except.ok ((p, { mode := mode, content := data }) :: fs)

/-- First-character test on the character list, mirroring
`b.startswith('/')` inside `os.path.join`. -/
def strHeadIs (s : String) (c : Char) : Bool :=
  match s.data with
  | [] => false
  | a :: _ => decide (a = c)

/-- Last-character test on the character list, mirroring `a.endswith('/')`
inside `os.path.join`. -/
def strLastIs (s : String) (c : Char) : Bool :=
  match s.data.getLast? with
  | none => false
  | some a => decide (a = c)

/-- `os.path.join(a, b)` for the cases arising here: an absolute second
component discards the first, otherwise the components are joined with a
separator unless one is already present. -/
def path_join (a b : String) : String :=
  if strHeadIs b '/' then b
  else if a = "" ∨ strLastIs a '/' then a ++ b
  else a ++ "/" ++ b

/-- Lines 160-161: `cert_path = os.path.join(temp_dir, cluster_id) + ".crt"`. -/
def cred_cert_path (td cid : String) : String :=
  path_join td cid ++ ".crt"

/-- Lines 160,162: `key_path = os.path.join(temp_dir, cluster_id) + ".pem"`. -/
def cred_key_path (td cid : String) : String :=
  path_join td cid ++ ".pem"

/-- Lines 164-168: the `for path, data in [(cert_path, tls_cert),
(key_path, tls_key)]` creation loop, with mode `0o600` and exclusive
creation.  Returns the raised error, if any, together with the filesystem
after the files that were successfully created (an error while creating the
key file leaves the already-created certificate file on disk until the
`finally` block removes it). -/
def createCredFiles (td cid : String) (cert key : List Nat) (fs : FS) : Option Err × FS :=
  match fsCreateExcl fs (cred_cert_path td cid) 0o600 cert with
  | Except.error e => (some e, fs)
  | Except.ok fs1 =>
    match fsCreateExcl fs1 (cred_key_path td cid) 0o600 key with
    | Except.error e => (some e, fs1)
    | Except.ok fs2 => (none, fs2)

/-- Lines 171-174: the `finally` block, `for path in [cert_path, key_path]:
if os.path.exists(path): os.unlink(path)`. -/
def cred_cleanup (td cid : String) (fs : FS) : FS :=
  unlinkIfExists (unlinkIfExists fs (cred_cert_path td cid)) (cred_key_path td cid)

/-- Lines 150-174: the `temp_write_credentials` context manager.  `body` is
the code executed inside the `with` block (it receives the two paths and
the filesystem and returns its outcome — a raised error is an
`Except.error` value — and the filesystem it leaves behind).  The `finally`
cleanup runs on every exit path: after the body, and also when file
creation itself raised. -/
def temp_write_credentials (td cid : String) (cert key : List Nat)
    (body : String → String → FS → Except Err String × FS) (fs : FS) :
    Except Err String × FS :=
  match createCredFiles td cid cert key fs with
  | (some e, fs1) => (Except.error e, cred_cleanup td cid fs1)
  | (none, fs2) =>
    let bp := body (cred_cert_path td cid) (cred_key_path td cid) fs2
    (bp.1, cred_cleanup td cid bp.2)

/-! ### The client pool (`clients` / `_get_client`, lines 135-148) -/

/-- The cache key of line 138: `(self.principal, self.keytab)`, both
optional strings (traitlets `Unicode` with `allow_none=True`). -/
def PoolKey : Type := Option String × Option String

instance : DecidableEq PoolKey := by
  unfold PoolKey
  infer_instance

/-- The process-wide `clients` class attribute plus an allocation counter:
client handles are identified by the token allocated when `skein.Client` is
constructed, so two constructions never yield the same handle. -/
structure Pool where
  table : List (PoolKey × Nat)
  next : Nat

/-- Dictionary lookup `clients.get(key)`. -/
def assocFind : List (PoolKey × Nat) → PoolKey → Option Nat
  | [], _ => none
  | kv :: t, k => if k = kv.1 then some kv.2 else assocFind t k

/-- Lines 137-148: `_get_client`.  On a cache hit the stored handle is
returned and nothing is constructed; on a miss a fresh `skein.Client` is
constructed (a new handle token) and stored under the key. -/
def _get_client (pool : Pool) (key : PoolKey) : Nat × Pool :=
  match assocFind pool.table key with
  | some c => (c, pool)
  | none =>
    (pool.next, { table := (key, pool.next) :: pool.table, next := pool.next + 1 })

/-- The pool with no cached clients (`clients = {}`, line 135). -/
def emptyPool : Pool :=
  { table := [], next := 0 }

/-- Well-formedness of a pool reachable from `emptyPool`: every stored
handle was allocated below the counter, and no two keys share a handle. -/
def PoolWF (p : Pool) : Prop :=
  (∀ k c, assocFind p.table k = some c → c < p.next) ∧
  (∀ k1 k2 c, assocFind p.table k1 = some c → assocFind p.table k2 = some c → k1 = k2)

/-! ### Persisted state (lines 229-237) -/

/-- The controller state this core persists: the single `app_id` field,
empty before submission. -/
structure ClusterState where
  app_id : String
deriving DecidableEq

/-- Lines 229-231: `load_state` reads `state.get('app_id', '')`. -/
def load_state (state : List (String × String)) : ClusterState :=
  { app_id := (dictGet state "app_id").getD "" }

/-- Lines 233-237: `get_state` adds `app_id` to the serialized state only
when it is non-empty (the base contribution is empty at this interface). -/
def get_state (st : ClusterState) : List (String × String) :=
  if st.app_id = "" then [] else [("app_id", st.app_id)]

/-! ### The polling phase of `start` (lines 248-275)

Both loops are driven by an environment: `reports n` is the result of the
`n`-th `client.application_report` call issued by this `start` (counting
from 0 across both loops), and `addr n` / `dashf n` are the externally
populated `scheduler_address` / `dashboard_address` fields as read after
`n` report calls have been issued. -/

/-- The outcome of the polling phase, together with the total number of
`application_report` calls issued and of `gen.sleep(0.5)` suspensions. -/
structure PhaseResult where
  outcome : Except Err (String × String)
  polls : Nat
  sleeps : Nat

/-- Lines 263-275: the address-wait loop.  While `scheduler_address` is
empty: sleep, poll the report, raise on a terminal state; once the address
is non-empty the loop exits and line 275 returns
`(scheduler_address, dashboard_address)`.  `k`/`s` are the polls and sleeps
already performed; the last argument is fuel. -/
def await_address (app_id : String) (reports : Nat → AppState) (addr dashf : Nat → String) :
    Nat → Nat → Nat → Option PhaseResult
  | _, _, 0 => none
  | k, s, fuel + 1 =>
    if addr k = "" then
      if inTerminalSet (stateStr (reports k)) then
        some { outcome := Except.error (Err.remoteTermination app_id), polls := k + 1, sleeps := s + 1 }
      else
        await_address app_id reports addr dashf (k + 1) (s + 1) fuel
    else
      some { outcome := Except.ok (addr k, dashf k), polls := k, sleeps := s }

/-- Lines 248-261: the wait-for-RUNNING loop.  Each iteration polls the
report; a terminal state raises, `RUNNING` breaks into the address-wait
loop, anything else sleeps and re-polls. -/
def await_running (app_id : String) (reports : Nat → AppState) (addr dashf : Nat → String) :
    Nat → Nat → Nat → Option PhaseResult
  | _, _, 0 => none
  | k, s, fuel + 1 =>
    let state := stateStr (reports k)
    if inTerminalSet state then
      some { outcome := Except.error (Err.remoteTermination app_id), polls := k + 1, sleeps := s }
    else if state = "RUNNING" then
      await_address app_id reports addr dashf (k + 1) s fuel
    else
      await_running app_id reports addr dashf (k + 1) (s + 1) fuel

/-- The whole polling phase of `start` after submission (lines 248-275),
started with zero polls and zero sleeps performed. -/
def start_poll_phase (app_id : String) (reports : Nat → AppState) (addr dashf : Nat → String)
    (fuel : Nat) : Option PhaseResult :=
  await_running app_id reports addr dashf 0 0 fuel

/-! ### `start`, `is_running`, `stop` (lines 239-293) -/

/-- The external world `start` interacts with: the fresh security
credential of line 197, the `client.submit` capability, and the report /
address / dashboard observations of the polling phase. -/
structure StartEnv where
  cred : Nat
  submit : ApplicationSpec → Except Err String
  reports : Nat → AppState
  addr : Nat → String
  dashf : Nat → String

/-- Lines 245-246, the body of the `with temp_write_credentials(...)` block:
build the specification from the credential paths and submit it, yielding
the application id (or propagating the raised error). -/
def start_body (cfg : Config) (env : StartEnv) (cert_path key_path : String) (fs : FS) :
    Except Err String × FS :=
  match _build_specification cfg env.cred cert_path key_path with
  | Except.error e => (Except.error e, fs)
  | Except.ok spec =>
    match env.submit spec with
    | Except.error e => (Except.error e, fs)
    | Except.ok app_id => (Except.ok app_id, fs)

/-- The result of a `start` run: its outcome (`none` when the fuel ran out
while a polling loop was still running), the controller state, the
filesystem, and the client pool. -/
structure StartResult where
  outcome : Option (Except Err (String × String))
  state : ClusterState
  fs : FS
  pool : Pool

/-- Lines 239-275: `start()`.  Acquires a pooled client, writes the
credential files for the duration of build-and-submit, records the returned
`app_id`, then runs the two polling loops and returns the endpoint pair. -/
def start (cfg : Config) (st0 : ClusterState) (pool : Pool) (env : StartEnv) (fs : FS)
    (fuel : Nat) : StartResult :=
  match temp_write_credentials cfg.temp_dir cfg.cluster_id cfg.tls_cert cfg.tls_key
      (start_body cfg env) fs with
  | (Except.error e, fs1) =>
    { outcome := some (Except.error e), state := st0, fs := fs1,
      pool := (_get_client pool (cfg.principal, cfg.keytab)).2 }
  | (Except.ok app_id, fs1) =>
    match start_poll_phase app_id env.reports env.addr env.dashf fuel with
    | none =>
      { outcome := none, state := { st0 with app_id := app_id }, fs := fs1,
        pool := (_get_client pool (cfg.principal, cfg.keytab)).2 }
    | some r =>
      { outcome := some r.outcome, state := { st0 with app_id := app_id }, fs := fs1,
        pool := (_get_client pool (cfg.principal, cfg.keytab)).2 }

/-- The observable result of an `is_running` call: the returned boolean,
the number of `application_report` calls issued, and the controller state
and pool left behind. -/
structure RunningResult where
  result : Bool
  reportCalls : Nat
  state : ClusterState
  pool : Pool

/-- Lines 277-285: `is_running()`.  An empty `app_id` returns `False`
before any client or report interaction; otherwise one report is polled and
the result is whether its state equals `RUNNING` (the external client's
enum-to-string equality, spec section 4.4: "true iff it equals RUNNING").
No controller state is written. -/
def is_running (cfg : Config) (st : ClusterState) (pool : Pool) (reportState : AppState) :
    RunningResult :=
  if st.app_id = "" then
    { result := false, reportCalls := 0, state := st, pool := pool }
  else
    { result := decide (reportState = AppState.RUNNING)
      reportCalls := 1
      state := st
      pool := (_get_client pool (cfg.principal, cfg.keytab)).2 }

/-- The observable result of a `stop` call: the application ids kill
requests were issued for (in order), the number of `application_report`
calls issued, and the controller state and pool left behind. -/
structure StopResult where
  kills : List String
  reportCalls : Nat
  state : ClusterState
  pool : Pool

/-- Lines 287-293: `stop()`.  An empty `app_id` returns before any client
interaction; otherwise exactly one `kill_application(app_id)` request is
issued, with no prior state re-check (no report call). -/
def stop (cfg : Config) (st : ClusterState) (pool : Pool) : StopResult :=
  if st.app_id = "" then
    { kills := [], reportCalls := 0, state := st, pool := pool }
  else
    { kills := [st.app_id]
      reportCalls := 0
      state := st
      pool := (_get_client pool (cfg.principal, cfg.keytab)).2 }

/-- A sample configuration used to exercise the lifecycle theorems. -/
def cfg0 : Config :=
  { principal := none
    keytab := none
    queue := "default"
    localize_files := []
    worker_memory := 2147483648
    worker_cores := 1
    worker_setup := ""
    worker_cmd := "dask-gateway-worker"
    scheduler_memory := 2147483648
    scheduler_cores := 1
    scheduler_setup := ""
    scheduler_cmd := "dask-gateway-scheduler"
    temp_dir := "/tmp"
    cluster_id := "c1"
    user_name := "alice"
    env_vars := []
    worker_args := ["--nthreads", "1"]
    scheduler_args := []
    tls_cert := [1, 2]
    tls_key := [3, 4] }

/-- The external world used to exercise `start` concretely. -/
def env0 : StartEnv :=
  { cred := 0
    submit := fun _ => Except.ok "application_1"
    reports := fun _ => AppState.ACCEPTED
    addr := fun _ => ""
    dashf := fun _ => "" }

/-! ## Filesystem lemmas -/

theorem fsUnlink_lookup_self (fs : FS) (p : String) :
    fsLookup (fsUnlink fs p) p = none := by
  induction fs with
  | nil => rfl
  | cons kv t ih =>
    unfold fsUnlink at ih ⊢
    rw [List.filter_cons]
    by_cases h : kv.1 = p
    · simp only [h, bne_self_eq_false, Bool.false_eq_true, if_false]
      exact ih
    · simp only [bne_iff_ne, ne_eq, h, not_false_eq_true, if_true]
      unfold fsLookup
      rw [if_neg (fun hp => h hp.symm)]
      exact ih

theorem fsUnlink_lookup_none (p q : String) :
    ∀ fs : FS, fsLookup fs p = none → fsLookup (fsUnlink fs q) p = none := by
  intro fs
  induction fs with
  | nil => intro _; rfl
  | cons kv t ih =>
    intro h
    unfold fsLookup at h
    by_cases hp : p = kv.1
    · rw [if_pos hp] at h; cases h
    · rw [if_neg hp] at h
      unfold fsUnlink at ih ⊢
      rw [List.filter_cons]
      by_cases hq : (kv.1 != q) = true
      · rw [if_pos hq]
        unfold fsLookup
        rw [if_neg hp]
        exact ih h
      · rw [if_neg hq]
        exact ih h

theorem unlinkIfExists_lookup_self (fs : FS) (p : String) :
    fsLookup (unlinkIfExists fs p) p = none := by
  unfold unlinkIfExists
  split
  · exact fsUnlink_lookup_self fs p
  · next h =>
    unfold fsExists at h
    cases hl : fsLookup fs p with
    | none => rfl
    | some r => rw [hl] at h; simp at h

theorem unlinkIfExists_lookup_none (fs : FS) (p q : String) (h : fsLookup fs p = none) :
    fsLookup (unlinkIfExists fs q) p = none := by
  unfold unlinkIfExists
  split
  · exact fsUnlink_lookup_none p q fs h
  · exact h

theorem cred_cleanup_clean (td cid : String) (fs : FS) :
    fsExists (cred_cleanup td cid fs) (cred_cert_path td cid) = false ∧
    fsExists (cred_cleanup td cid fs) (cred_key_path td cid) = false := by
  unfold cred_cleanup fsExists
  constructor
  · rw [unlinkIfExists_lookup_none _ _ _ (unlinkIfExists_lookup_self fs _)]
    rfl
  · rw [unlinkIfExists_lookup_self]
    rfl

theorem temp_write_credentials_fs (td cid : String) (cert key : List Nat)
    (body : String → String → FS → Except Err String × FS) (fs : FS) :
    ∃ fs1, (temp_write_credentials td cid cert key body fs).2 = cred_cleanup td cid fs1 := by
  unfold temp_write_credentials
  split
  · exact ⟨_, rfl⟩
  · exact ⟨_, rfl⟩

/-- C2: for every execution of the scoped credential acquisition
(`temp_write_credentials`) — normal return, an error raised inside the
scope (the body's outcome is arbitrary, covering raised errors and
cancellation injected at the suspension points), or an error raised while
creating or writing the files — neither the certificate file nor the key
file remains on disk after the scope exits.  During `start` the scope
closes at submission, before the first status poll, so this covers that
path as well. -/
theorem c2_credentials_never_remain (td cid : String) (cert key : List Nat)
    (body : String → String → FS → Except Err String × FS) (fs : FS) :
    fsExists (temp_write_credentials td cid cert key body fs).2 (cred_cert_path td cid) = false ∧
    fsExists (temp_write_credentials td cid cert key body fs).2 (cred_key_path td cid) = false := by
  obtain ⟨fs1, h⟩ := temp_write_credentials_fs td cid cert key body fs
  rw [h]
  exact cred_cleanup_clean td cid fs1

theorem fsCreateExcl_absent (fs : FS) (p : String) (mode : Nat) (data : List Nat)
    (h : fsExists fs p = false) :
    fsCreateExcl fs p mode data = Except.ok ((p, { mode := mode, content := data }) :: fs) := by
  unfold fsCreateExcl
  rw [h, if_neg Bool.false_ne_true]

theorem fsCreateExcl_present (fs : FS) (p : String) (mode : Nat) (data : List Nat)
    (h : fsExists fs p = true) :
    fsCreateExcl fs p mode data = Except.error (Err.fileExists p) := by
  unfold fsCreateExcl
  rw [h, if_pos rfl]

/-! ## Path distinctness -/

theorem str_data_append (a b : String) : (a ++ b).data = a.data ++ b.data := by
  cases a
  cases b
  rfl

theorem list_append_cancel {l s t : List Char} (h : l ++ s = l ++ t) : s = t := by
  induction l with
  | nil => simpa using h
  | cons a l ih =>
    simp only [List.cons_append, List.cons.injEq, true_and] at h
    exact ih h

theorem cred_paths_ne (td cid : String) : cred_cert_path td cid ≠ cred_key_path td cid := by
  intro h
  unfold cred_cert_path cred_key_path at h
  have h1 : (path_join td cid).data ++ ".crt".data = (path_join td cid).data ++ ".pem".data := by
    have h2 := congrArg String.data h
    rwa [str_data_append, str_data_append] at h2
  have h3 := list_append_cancel h1
  have h4 : (".crt" : String) = ".pem" := congrArg String.mk h3
  exact absurd h4 (by decide)

/-- C3: `temp_write_credentials` creates each of the two credential files
with exclusive-create semantics — if either target path already exists the
scope raises `FileExistsError` for that path instead of overwriting — and
the files it does create carry permission mode `0o600` (owner read/write
only), for every cluster identifier and every pair of cert/key byte
strings. -/
theorem c3_exclusive_create_owner_only_mode (td cid : String) (cert key : List Nat) (fs : FS)
    (body : String → String → FS → Except Err String × FS) :
    (fsExists fs (cred_cert_path td cid) = true →
      (temp_write_credentials td cid cert key body fs).1 =
        Except.error (Err.fileExists (cred_cert_path td cid))) ∧
    (fsExists fs (cred_cert_path td cid) = false →
      fsExists fs (cred_key_path td cid) = true →
      (temp_write_credentials td cid cert key body fs).1 =
        Except.error (Err.fileExists (cred_key_path td cid))) ∧
    (fsExists fs (cred_cert_path td cid) = false →
      fsExists fs (cred_key_path td cid) = false →
      (createCredFiles td cid cert key fs).1 = none ∧
      fsLookup (createCredFiles td cid cert key fs).2 (cred_cert_path td cid) =
        some { mode := 0o600, content := cert } ∧
      fsLookup (createCredFiles td cid cert key fs).2 (cred_key_path td cid) =
        some { mode := 0o600, content := key }) := by
  have hne := cred_paths_ne td cid
  refine ⟨?_, ?_, ?_⟩
  · intro h
    unfold temp_write_credentials createCredFiles fsCreateExcl
    rw [h]
    rfl
  · intro h1 h2
    unfold temp_write_credentials createCredFiles fsCreateExcl
    rw [h1]
    have hkey : fsExists ((cred_cert_path td cid,
        { mode := 0o600, content := cert }) :: fs) (cred_key_path td cid) = true := by
      unfold fsExists fsLookup
      rw [if_neg (fun hp => hne hp.symm)]
      exact h2
    simp only [Bool.false_eq_true, if_false, hkey, if_true]
  · intro h1 h2
    have hkey : fsExists ((cred_cert_path td cid,
        { mode := 0o600, content := cert }) :: fs) (cred_key_path td cid) = false := by
      unfold fsExists fsLookup
      rw [if_neg (fun hp => hne hp.symm)]
      exact h2
    have hcc : createCredFiles td cid cert key fs =
        (none, (cred_key_path td cid, { mode := 0o600, content := key }) ::
          (cred_cert_path td cid, { mode := 0o600, content := cert }) :: fs) := by
      unfold createCredFiles
      simp only [fsCreateExcl_absent _ _ _ _ h1, fsCreateExcl_absent _ _ _ _ hkey]
    rw [hcc]
    refine ⟨rfl, ?_, ?_⟩
    · show fsLookup ((cred_key_path td cid, { mode := 0o600, content := key }) ::
        (cred_cert_path td cid, { mode := 0o600, content := cert }) :: fs)
        (cred_cert_path td cid) = some { mode := 0o600, content := cert }
      unfold fsLookup
      rw [if_neg hne]
      unfold fsLookup
      rw [if_pos rfl]
    · show fsLookup ((cred_key_path td cid, { mode := 0o600, content := key }) ::
        (cred_cert_path td cid, { mode := 0o600, content := cert }) :: fs)
        (cred_key_path td cid) = some { mode := 0o600, content := key }
      unfold fsLookup
      rw [if_pos rfl]

/-- Concrete exercise of `c3_exclusive_create_owner_only_mode`: a
pre-existing certificate file, a pre-existing key file, and a clean
filesystem. -/
theorem c3_witness :
    (temp_write_credentials "/tmp" "c" [1] [2] (fun _ _ g => (Except.ok "a", g))
        [("/tmp/c.crt", { mode := 0, content := [] })]).1 =
      Except.error (Err.fileExists (cred_cert_path "/tmp" "c")) ∧
    (temp_write_credentials "/tmp" "c" [1] [2] (fun _ _ g => (Except.ok "a", g))
        [("/tmp/c.pem", { mode := 0, content := [] })]).1 =
      Except.error (Err.fileExists (cred_key_path "/tmp" "c")) ∧
    ((createCredFiles "/tmp" "c" [1] [2] []).1 = none ∧
      fsLookup (createCredFiles "/tmp" "c" [1] [2] []).2 (cred_cert_path "/tmp" "c") =
        some { mode := 0o600, content := [1] } ∧
      fsLookup (createCredFiles "/tmp" "c" [1] [2] []).2 (cred_key_path "/tmp" "c") =
        some { mode := 0o600, content := [2] }) :=
  ⟨(c3_exclusive_create_owner_only_mode "/tmp" "c" [1] [2]
      [("/tmp/c.crt", { mode := 0, content := [] })] (fun _ _ g => (Except.ok "a", g))).1 (by decide),
   (c3_exclusive_create_owner_only_mode "/tmp" "c" [1] [2]
      [("/tmp/c.pem", { mode := 0, content := [] })] (fun _ _ g => (Except.ok "a", g))).2.1 (by decide) (by decide),
   (c3_exclusive_create_owner_only_mode "/tmp" "c" [1] [2]
      [] (fun _ _ g => (Except.ok "a", g))).2.2 (by decide) (by decide)⟩

/-! ## Client-pool lemmas -/

theorem get_client_hit (pool : Pool) (k : PoolKey) (c : Nat)
    (h : assocFind pool.table k = some c) : _get_client pool k = (c, pool) := by
  unfold _get_client
  rw [h]

theorem get_client_miss (pool : Pool) (k : PoolKey)
    (h : assocFind pool.table k = none) :
    _get_client pool k =
      (pool.next, { table := (k, pool.next) :: pool.table, next := pool.next + 1 }) := by
  unfold _get_client
  rw [h]

theorem get_client_find (pool : Pool) (k : PoolKey) :
    assocFind ((_get_client pool k).2).table k = some (_get_client pool k).1 := by
  cases h : assocFind pool.table k with
  | some c => rw [get_client_hit pool k c h]; exact h
  | none =>
    rw [get_client_miss pool k h]
    unfold assocFind
    rw [if_pos rfl]

theorem get_client_wf (pool : Pool) (k : PoolKey) (h : PoolWF pool) :
    PoolWF ((_get_client pool k).2) := by
  obtain ⟨hb, hinj⟩ := h
  cases hf : assocFind pool.table k with
  | some c => rw [get_client_hit pool k c hf]; exact ⟨hb, hinj⟩
  | none =>
    rw [get_client_miss pool k hf]
    constructor
    · intro q c hq
      unfold assocFind at hq
      by_cases hqk : q = k
      · rw [if_pos hqk] at hq
        cases hq
        exact Nat.lt_succ_self _
      · rw [if_neg hqk] at hq
        exact Nat.lt_succ_of_lt (hb q c hq)
    · intro q1 q2 c hq1 hq2
      unfold assocFind at hq1 hq2
      by_cases h1k : q1 = k <;> by_cases h2k : q2 = k
      · rw [h1k, h2k]
      · rw [if_pos h1k] at hq1
        rw [if_neg h2k] at hq2
        cases hq1
        exact absurd (hb q2 _ hq2) (Nat.lt_irrefl _)
      · rw [if_neg h1k] at hq1
        rw [if_pos h2k] at hq2
        cases hq2
        exact absurd (hb q1 _ hq1) (Nat.lt_irrefl _)
      · rw [if_neg h1k] at hq1
        rw [if_neg h2k] at hq2
        exact hinj q1 q2 c hq1 hq2

theorem poolWF_empty : PoolWF emptyPool := by
  constructor
  · intro k c h
    simp [assocFind, emptyPool] at h
  · intro k1 k2 c h1 _
    simp [assocFind, emptyPool] at h1

/-- C4: on a well-formed pool (any pool reachable from the empty class-level
cache), a second `_get_client` call with an identity equal to the first
returns the same client handle and leaves the pool untouched (no new client
is constructed), while a call with a distinct identity never returns that
handle. -/
theorem c4_client_pool_identity_sharing (pool : Pool) (hwf : PoolWF pool)
    (k kx : PoolKey) (hne : kx ≠ k) :
    _get_client ((_get_client pool k).2) k = _get_client pool k ∧
    (_get_client ((_get_client pool k).2) kx).1 ≠ (_get_client pool k).1 := by
  have hwf1 := get_client_wf pool k hwf
  have hf := get_client_find pool k
  constructor
  · exact (get_client_hit _ k _ hf).trans rfl
  · cases hfx : assocFind ((_get_client pool k).2).table kx with
    | some c =>
      rw [get_client_hit _ kx c hfx]
      intro hc
      have hc' : c = (_get_client pool k).1 := hc
      rw [hc'] at hfx
      exact hne (hwf1.2 kx k _ hfx hf)
    | none =>
      rw [get_client_miss _ kx hfx]
      exact ne_of_gt (hwf1.1 k _ hf)

/-- Concrete exercise of `c4_client_pool_identity_sharing`: the no-identity
key (both fields absent) against a Kerberos identity, starting from the
empty pool. -/
theorem c4_witness :
    _get_client ((_get_client emptyPool (none, none)).2) (none, none) =
      _get_client emptyPool (none, none) ∧
    (_get_client ((_get_client emptyPool (none, none)).2) (some "u", none)).1 ≠
      (_get_client emptyPool (none, none)).1 :=
  c4_client_pool_identity_sharing emptyPool poolWF_empty (none, none) (some "u", none)
    (by decide)

/-! ## `is_running` and `stop` -/

/-- C5: `is_running` on a controller whose recorded `app_id` is empty
returns `false` with zero `application_report` calls issued; with a
non-empty `app_id` it issues exactly one report query and returns `true`
exactly when the reported state is `RUNNING`.  In both cases the controller
state is returned unchanged (and in the empty case the pool is untouched as
well, since not even `_get_client` runs). -/
theorem c5_is_running_report_discipline (cfg : Config) (st : ClusterState) (pool : Pool)
    (r : AppState) :
    (st.app_id = "" →
      is_running cfg st pool r =
        { result := false, reportCalls := 0, state := st, pool := pool }) ∧
    (st.app_id ≠ "" →
      is_running cfg st pool r =
        { result := decide (r = AppState.RUNNING)
          reportCalls := 1
          state := st
          pool := (_get_client pool (cfg.principal, cfg.keytab)).2 }) := by
  constructor <;> intro h <;> simp [is_running, h]

/-- Concrete exercise of `c5_is_running_report_discipline` on an empty and
a set `app_id`. -/
theorem c5_witness :
    is_running cfg0 { app_id := "" } emptyPool AppState.RUNNING =
      { result := false, reportCalls := 0, state := { app_id := "" }, pool := emptyPool } ∧
    is_running cfg0 { app_id := "a1" } emptyPool AppState.RUNNING =
      { result := decide (AppState.RUNNING = AppState.RUNNING)
        reportCalls := 1
        state := { app_id := "a1" }
        pool := (_get_client emptyPool (cfg0.principal, cfg0.keytab)).2 } :=
  ⟨(c5_is_running_report_discipline cfg0 { app_id := "" } emptyPool AppState.RUNNING).1 rfl,
   (c5_is_running_report_discipline cfg0 { app_id := "a1" } emptyPool AppState.RUNNING).2
     (by decide)⟩

/-- C9: `stop` on a controller with an empty `app_id` returns without any
kill or report call and with the pool untouched; with a non-empty `app_id`
each call issues exactly one kill request for that id and no report query
(no state re-check), so two successive calls issue two kill requests — and
`stop` returns normally (the modelled kill capability does not raise). -/
theorem c9_stop_kill_discipline (cfg : Config) (st : ClusterState) (pool : Pool) :
    (st.app_id = "" →
      stop cfg st pool = { kills := [], reportCalls := 0, state := st, pool := pool }) ∧
    (st.app_id ≠ "" →
      (stop cfg st pool).kills = [st.app_id] ∧
      (stop cfg st pool).reportCalls = 0 ∧
      (stop cfg st pool).state = st ∧
      (stop cfg ((stop cfg st pool).state) ((stop cfg st pool).pool)).kills = [st.app_id] ∧
      (stop cfg ((stop cfg st pool).state) ((stop cfg st pool).pool)).reportCalls = 0) := by
  constructor <;> intro h <;> simp [stop, h]

/-- Concrete exercise of `c9_stop_kill_discipline` on an empty and a set
`app_id` (the latter covering the double-stop scenario). -/
theorem c9_witness :
    stop cfg0 { app_id := "" } emptyPool =
      { kills := [], reportCalls := 0, state := { app_id := "" }, pool := emptyPool } ∧
    (stop cfg0 { app_id := "a1" } emptyPool).kills = ["a1"] ∧
    (stop cfg0 ((stop cfg0 { app_id := "a1" } emptyPool).state)
      ((stop cfg0 { app_id := "a1" } emptyPool).pool)).kills = ["a1"] :=
  ⟨(c9_stop_kill_discipline cfg0 { app_id := "" } emptyPool).1 rfl,
   ((c9_stop_kill_discipline cfg0 { app_id := "a1" } emptyPool).2 (by decide)).1,
   (((c9_stop_kill_discipline cfg0 { app_id := "a1" } emptyPool).2 (by decide)).2.2.2).1⟩

/-! ## The launch-command type error (C6, C7) -/

/-- C6 (code bug): the claim says the launch script is the configured setup
script joined by a newline with the command name followed by its arguments
joined by spaces.  The code instead evaluates
`' '.join(self.scheduler_cmd + self.get_scheduler_args())`, adding a `str`
to a `list`, which raises `TypeError` for every command string and argument
list — no launch script is ever built. -/
theorem c6_launch_command_type_error (cmd : String) (args : List String) :
    scheduler_command cmd args = Except.error Err.typeError ∧
    worker_command cmd args = Except.error Err.typeError :=
  ⟨rfl, rfl⟩

/-- C7 (code bug): `_build_specification` evaluates `scheduler_command`
before assembling the spec, so it raises `TypeError` on every input and
never produces an `ApplicationSpec` value at all (deterministically or
otherwise). -/
theorem c7_build_specification_raises (cfg : Config) (cred : Nat) (cert_path key_path : String) :
    _build_specification cfg cred cert_path key_path = Except.error Err.typeError :=
  rfl

/-! ## Polling-phase lemmas -/

theorem await_address_ok (app_id : String) (reports : Nat → AppState)
    (addr dashf : Nat → String) :
    ∀ fuel k s r, await_address app_id reports addr dashf k s fuel = some r →
      ∀ a d, r.outcome = Except.ok (a, d) →
        a = addr r.polls ∧ addr r.polls ≠ "" ∧ d = dashf r.polls := by
  intro fuel
  induction fuel with
  | zero =>
    intro k s r h
    simp [await_address] at h
  | succ n ih =>
    intro k s r h a d hout
    simp only [await_address] at h
    split at h
    · split at h
      · injection h with h'
        subst h'
        simp at hout
      · exact ih (k + 1) (s + 1) r h a d hout
    · next hcond =>
      injection h with h'
      subst h'
      simp only [Except.ok.injEq, Prod.mk.injEq] at hout
      obtain ⟨ha, hd⟩ := hout
      exact ⟨ha.symm, hcond, hd.symm⟩

theorem await_running_ok (app_id : String) (reports : Nat → AppState)
    (addr dashf : Nat → String) :
    ∀ fuel k s r, await_running app_id reports addr dashf k s fuel = some r →
      ∀ a d, r.outcome = Except.ok (a, d) →
        a = addr r.polls ∧ addr r.polls ≠ "" ∧ d = dashf r.polls := by
  intro fuel
  induction fuel with
  | zero =>
    intro k s r h
    simp [await_running] at h
  | succ n ih =>
    intro k s r h a d hout
    simp only [await_running] at h
    split at h
    · injection h with h'
      subst h'
      simp at hout
    · split at h
      · exact await_address_ok app_id reports addr dashf n (k + 1) s r h a d hout
      · exact ih (k + 1) (s + 1) r h a d hout

theorem await_address_err (app_id : String) (reports : Nat → AppState)
    (addr dashf : Nat → String) :
    ∀ fuel k s r, await_address app_id reports addr dashf k s fuel = some r →
      ∀ e, r.outcome = Except.error e → e = Err.remoteTermination app_id := by
  intro fuel
  induction fuel with
  | zero =>
    intro k s r h
    simp [await_address] at h
  | succ n ih =>
    intro k s r h e hout
    simp only [await_address] at h
    split at h
    · split at h
      · injection h with h'
        subst h'
        simp only [Except.error.injEq] at hout
        exact hout.symm
      · exact ih (k + 1) (s + 1) r h e hout
    · injection h with h'
      subst h'
      simp at hout

theorem await_running_err (app_id : String) (reports : Nat → AppState)
    (addr dashf : Nat → String) :
    ∀ fuel k s r, await_running app_id reports addr dashf k s fuel = some r →
      ∀ e, r.outcome = Except.error e → e = Err.remoteTermination app_id := by
  intro fuel
  induction fuel with
  | zero =>
    intro k s r h
    simp [await_running] at h
  | succ n ih =>
    intro k s r h e hout
    simp only [await_running] at h
    split at h
    · injection h with h'
      subst h'
      simp only [Except.error.injEq] at hout
      exact hout.symm
    · split at h
      · exact await_address_err app_id reports addr dashf n (k + 1) s r h e hout
      · exact ih (k + 1) (s + 1) r h e hout

/-- C1: for every sequence of polled application reports and every
evolution of the externally supplied scheduler address, whenever the
polling phase of `start` returns the endpoint pair, the returned scheduler
address is the address observed at return time and it is non-empty — the
pair is never returned while the scheduler address is the empty string. -/
theorem c1_start_returns_only_with_address (app_id : String) (reports : Nat → AppState)
    (addr dashf : Nat → String) (fuel : Nat) (r : PhaseResult)
    (h : start_poll_phase app_id reports addr dashf fuel = some r)
    (a d : String) (hout : r.outcome = Except.ok (a, d)) :
    a ≠ "" ∧ a = addr r.polls ∧ addr r.polls ≠ "" := by
  obtain ⟨ha, hne, _⟩ := await_running_ok app_id reports addr dashf fuel 0 0 r h a d hout
  refine ⟨?_, ha, hne⟩
  rw [ha]
  exact hne

/-- Concrete exercise of `c1_start_returns_only_with_address`: a report
that is immediately `RUNNING` and an address that is already populated. -/
theorem c1_witness :
    start_poll_phase "app" (fun _ => AppState.RUNNING) (fun _ => "tcp://s:8786")
        (fun _ => "http://d:8787") 2 =
      some { outcome := Except.ok ("tcp://s:8786", "http://d:8787"), polls := 1, sleeps := 0 } ∧
    ("tcp://s:8786" : String) ≠ "" :=
  ⟨rfl,
   (c1_start_returns_only_with_address "app" (fun _ => AppState.RUNNING)
      (fun _ => "tcp://s:8786") (fun _ => "http://d:8787") 2
      { outcome := Except.ok ("tcp://s:8786", "http://d:8787"), polls := 1, sleeps := 0 } rfl
      "tcp://s:8786" "http://d:8787" rfl).1⟩

/-- C10: if the scheduler address is already non-empty at the moment the
first polling loop observes state `RUNNING` (after the poll at index `k`),
`start`'s polling phase returns the `(scheduler_address, dashboard_address)`
pair immediately: the address-wait loop performs no additional sleep and no
additional application-report poll (`polls` stays at `k + 1`, `sleeps`
stays at `s`). -/
theorem c10_no_extra_poll_when_address_ready (app_id : String) (reports : Nat → AppState)
    (addr dashf : Nat → String) (k s fuel : Nat)
    (hrun : reports k = AppState.RUNNING) (haddr : addr (k + 1) ≠ "") :
    await_running app_id reports addr dashf k s (fuel + 2) =
      some { outcome := Except.ok (addr (k + 1), dashf (k + 1)), polls := k + 1, sleeps := s } := by
  show await_running app_id reports addr dashf k s (fuel + 1 + 1) = _
  simp only [await_running, hrun]
  rw [show stateStr AppState.RUNNING = "RUNNING" from rfl]
  rw [show inTerminalSet "RUNNING" = false from rfl]
  rw [if_neg Bool.false_ne_true, if_pos rfl]
  simp only [await_address]
  rw [if_neg haddr]

/-- Concrete exercise of `c10_no_extra_poll_when_address_ready` at the
first poll. -/
theorem c10_witness :
    await_running "app" (fun _ => AppState.RUNNING) (fun _ => "tcp://s:8786")
        (fun _ => "http://d:8787") 0 0 2 =
      some { outcome := Except.ok ("tcp://s:8786", "http://d:8787"), polls := 1, sleeps := 0 } :=
  c10_no_extra_poll_when_address_ready "app" (fun _ => AppState.RUNNING)
    (fun _ => "tcp://s:8786") (fun _ => "http://d:8787") 0 0 0 rfl (by decide)

/-! ## `start` failure hygiene (C8) -/

theorem start_raises (cfg : Config) (st0 : ClusterState) (pool : Pool) (env : StartEnv)
    (fs : FS) (fuel : Nat) :
    ∃ e fs1, start cfg st0 pool env fs fuel =
      { outcome := some (Except.error e), state := st0,
        fs := cred_cleanup cfg.temp_dir cfg.cluster_id fs1,
        pool := (_get_client pool (cfg.principal, cfg.keytab)).2 } := by
  rcases hc : createCredFiles cfg.temp_dir cfg.cluster_id cfg.tls_cert cfg.tls_key fs
    with ⟨oe, fsx⟩
  cases oe with
  | some e =>
    refine ⟨e, fsx, ?_⟩
    unfold start temp_write_credentials
    rw [hc]
  | none =>
    refine ⟨Err.typeError, fsx, ?_⟩
    unfold start temp_write_credentials
    rw [hc]
    rfl

/-- C8: every execution of `start` fails (the launch-command `TypeError` of
C6 is raised inside the credential scope, before submission), and every
failing execution leaves no credential file on disk and leaves the
controller state — hence the persisted `app_id`, and with it the serialized
state — exactly as last recorded; in particular an empty (never-submitted)
`app_id` stays empty.  For the polling phase after a successful submission,
any raised failure is the remote-termination error carrying exactly the
submitted application id. -/
theorem c8_failed_start_leaves_clean_state (cfg : Config) (st0 : ClusterState) (pool : Pool)
    (env : StartEnv) (fs : FS) (fuel : Nat) :
    ((start cfg st0 pool env fs fuel).state = st0 ∧
      get_state (start cfg st0 pool env fs fuel).state = get_state st0 ∧
      fsExists (start cfg st0 pool env fs fuel).fs
        (cred_cert_path cfg.temp_dir cfg.cluster_id) = false ∧
      fsExists (start cfg st0 pool env fs fuel).fs
        (cred_key_path cfg.temp_dir cfg.cluster_id) = false ∧
      ∃ e, (start cfg st0 pool env fs fuel).outcome = some (Except.error e)) ∧
    (∀ app_id2 reports addr dashf fuel2 r e,
      start_poll_phase app_id2 reports addr dashf fuel2 = some r →
      r.outcome = Except.error e → e = Err.remoteTermination app_id2) := by
  constructor
  · obtain ⟨e, fs1, hstart⟩ := start_raises cfg st0 pool env fs fuel
    rw [hstart]
    exact ⟨rfl, rfl, (cred_cleanup_clean _ _ fs1).1, (cred_cleanup_clean _ _ fs1).2, e, rfl⟩
  · intro app_id2 reports addr dashf fuel2 r e h hout
    exact await_running_err app_id2 reports addr dashf fuel2 0 0 r h e hout

/-- Concrete exercise of `c8_failed_start_leaves_clean_state`: a concrete
`start` run, and an immediately failing report sequence for the
polling-phase half. -/
theorem c8_witness :
    (start cfg0 { app_id := "" } emptyPool env0 [] 0).state = { app_id := "" } ∧
    fsExists (start cfg0 { app_id := "" } emptyPool env0 [] 0).fs
      (cred_cert_path cfg0.temp_dir cfg0.cluster_id) = false ∧
    Err.remoteTermination "app" = Err.remoteTermination "app" :=
  ⟨((c8_failed_start_leaves_clean_state cfg0 { app_id := "" } emptyPool env0 [] 0).1).1,
   ((c8_failed_start_leaves_clean_state cfg0 { app_id := "" } emptyPool env0 [] 0).1).2.2.1,
   (c8_failed_start_leaves_clean_state cfg0 { app_id := "" } emptyPool env0 [] 0).2 "app"
     (fun _ => AppState.FAILED) (fun _ => "") (fun _ => "") 1
     { outcome := Except.error (Err.remoteTermination "app"), polls := 1, sleeps := 0 }
     (Err.remoteTermination "app") rfl rfl⟩

end YarnCluster
